import Mathlib

/-!
Verification development for the vibevoice-labs inference engine.

Shallow embedding of the Python sources:
- scenario-08-onnx-native/huggingface/example_inference.py
  (simple_tokenize, load_voice_preset fallback, run_pipeline)
- scenario-02-fullstack/backend/app/api/routes.py (generate_speech)
- scenario-02-fullstack/backend/app/services/tts_service.py
  (voice registry, preset resolution, generate_audio deep-copy discipline)

Modelling conventions. Python floats are modelled as exact rationals;
np.sqrt is an abstract parameter (the statements proved hold for every
sqrt function, in particular the real one). Tensors are modelled by
lists of rationals, with numpy's broadcasting elementwise operations
modelled by map/zipWith. The neural forward passes (ONNX sessions) are
abstract function parameters, as are the seeded RNG draws.
-/

namespace VibeVoice

/-! ### Elementwise tensor operations (numpy broadcasting on flat data) -/

def addL (a b : List ℚ) : List ℚ := List.zipWith (· + ·) a b

def subL (a b : List ℚ) : List ℚ := List.zipWith (· - ·) a b

def smulL (a : ℚ) (v : List ℚ) : List ℚ := v.map (fun x => a * x)

def divL (v : List ℚ) (a : ℚ) : List ℚ := v.map (fun x => x / a)

/-- np.clip applied elementwise. -/
def clipL (lo hi : ℚ) (v : List ℚ) : List ℚ := v.map (fun x => max lo (min hi x))

/-- np.zeros_like. -/
def zerosLike (v : List ℚ) : List ℚ := v.map (fun _ => 0)

/-! ### Python round(): round half to even (banker's rounding) -/

/-- Executable floor on the rationals (equal to Int.floor, see ratFloor_eq). -/
def ratFloor (x : ℚ) : ℤ := x.num / x.den

theorem ratFloor_eq (x : ℚ) : ratFloor x = ⌊x⌋ := Rat.floor_def.symm

def pyRound (x : ℚ) : ℤ :=
  let f : ℤ := ratFloor x
  let r : ℚ := x - f
  if r < 1/2 then f
  else if 1/2 < r then f + 1
  else if f % 2 = 0 then f else f + 1

/-! ### Diffusion schedule (example_inference.py lines 155-164) -/

def beta_start : ℚ := 85 / 100000

def beta_end : ℚ := 12 / 1000

def num_train : ℕ := 1000

/-- np.linspace(beta_start, beta_end, num_train) entry i. -/
def betas (i : ℕ) : ℚ := beta_start + i * (beta_end - beta_start) / (num_train - 1)

def alphas (i : ℕ) : ℚ := 1 - betas i

/-- np.cumprod(alphas) entry t. -/
def alphas_cumprod (t : ℕ) : ℚ := ∏ i in Finset.range (t + 1), alphas i

/-- step_size = num_train / num_steps (Python true division). -/
def step_size (num_steps : ℕ) : ℚ := (num_train : ℚ) / num_steps

/-- timesteps = [int(round(num_train - 1 - i * step_size)) for i in range(num_steps)],
    then clamped with max(t, 0). -/
def timesteps (num_steps : ℕ) : List ℤ :=
  ((List.range num_steps).map
      (fun (i : ℕ) => pyRound ((num_train : ℚ) - 1 - (i : ℚ) * step_size num_steps))).map
    (fun t => max t 0)

/-! ### Diffusion denoising loop (example_inference.py lines 150-189)

The diffusion ONNX session is an abstract function of
(latent_sample, encoder_hidden_states, voice_conditioning, timestep);
rng.randn is an abstract function of the seed; np.sqrt is an abstract
function parameter. -/

/-- Type of the diffusion_step ONNX session:
    (latent_sample, encoder_hidden_states, voice_conditioning, timestep) → noise_pred. -/
def DiffModel : Type := List ℚ → List ℚ → List ℚ → ℤ → List ℚ

/-- CFG combination (line 180):
    noise_pred = uncond_pred + cfg_scale * (noise_pred - uncond_pred). -/
def cfgCombine (cfg_scale : ℚ) (noise_pred uncond_pred : List ℚ) : List ℚ :=
  addL uncond_pred (smulL cfg_scale (subL noise_pred uncond_pred))

/-- The guided noise prediction of one loop iteration (lines 174-180):
    conditional prediction, and if cfg_scale > 1.0 additionally the
    unconditional prediction (zeroed voice conditioning), combined by CFG. -/
def guidedNoise (dm : DiffModel) (latents hidden voice : List ℚ) (cfg_scale : ℚ)
    (t : ℤ) : List ℚ :=
  let noise_pred := dm latents hidden voice t
  if cfg_scale > 1 then
    cfgCombine cfg_scale noise_pred (dm latents hidden (zerosLike voice) t)
  else
    noise_pred

/-- DDPM latent update of one loop iteration (lines 182-187). -/
def ddpmUpdate (sqrt : ℚ → ℚ) (latents noise_pred : List ℚ) (t : ℤ) : List ℚ :=
  let alpha_t := alphas_cumprod t.toNat
  let alpha_prev := if t > 0 then alphas_cumprod (t - 1).toNat else 1
  let x0_pred :=
    clipL (-1) 1 (divL (subL latents (smulL (sqrt (1 - alpha_t)) noise_pred)) (sqrt alpha_t))
  addL (smulL (sqrt alpha_prev) x0_pred) (smulL (sqrt (1 - alpha_prev)) noise_pred)

/-- Loop state, instrumented with the number of unconditional (negative)
    diffusion invocations and the number of completed loop iterations. -/
structure DiffState where
  latents : List ℚ
  negCalls : ℕ
  iters : ℕ
deriving Repr, DecidableEq

/-- One iteration of the diffusion loop body (lines 166-189). -/
def diffIter (sqrt : ℚ → ℚ) (dm : DiffModel) (hidden voice : List ℚ) (cfg_scale : ℚ)
    (st : DiffState) (t : ℤ) : DiffState :=
  { latents := ddpmUpdate sqrt st.latents (guidedNoise dm st.latents hidden voice cfg_scale t) t
    negCalls := st.negCalls + (if cfg_scale > 1 then 1 else 0)
    iters := st.iters + 1 }

/-- The diffusion denoising loop (lines 151-189): the latent starts as the
    seeded rng.randn draw and the loop folds over the timestep list. -/
def runDiffusion (sqrt : ℚ → ℚ) (dm : DiffModel) (randn : ℕ → List ℚ)
    (hidden voice : List ℚ) (num_steps : ℕ) (cfg_scale : ℚ) (seed : ℕ) : DiffState :=
  (timesteps num_steps).foldl (diffIter sqrt dm hidden voice cfg_scale)
    { latents := randn seed, negCalls := 0, iters := 0 }

/-- One diffusion-loop iteration with only the conditional prediction
    (the unconditioned-skip loop body). -/
def diffIterSingle (sqrt : ℚ → ℚ) (dm : DiffModel) (hidden voice : List ℚ)
    (latents : List ℚ) (t : ℤ) : List ℚ :=
  ddpmUpdate sqrt latents (dm latents hidden voice t) t

/-- The single-pass (unconditioned-skip) diffusion loop. -/
def runDiffusionSingle (sqrt : ℚ → ℚ) (dm : DiffModel) (randn : ℕ → List ℚ)
    (hidden voice : List ℚ) (num_steps : ℕ) (seed : ℕ) : List ℚ :=
  (timesteps num_steps).foldl (diffIterSingle sqrt dm hidden voice) (randn seed)

/-! ### Full pipeline (example_inference.py run_pipeline, lines 124-197) -/

/-- Result of run_pipeline, instrumented with the token sequences the text
    encoder was invoked on (line 147 invokes it exactly once, on token_ids,
    with no emptiness check). -/
structure PipelineResult where
  encoderCalls : List (List ℤ)
  latents : List ℚ
  audio : List ℚ
deriving Repr, DecidableEq

def run_pipeline (text_encoder : List ℤ → List ℚ) (dm : DiffModel)
    (decoder : List ℚ → List ℚ) (sqrt : ℚ → ℚ) (randn : ℕ → List ℚ)
    (token_ids : List ℤ) (voice_conditioning : List ℚ)
    (num_steps : ℕ) (cfg_scale : ℚ) (seed : ℕ) : PipelineResult :=
  let hidden_states := text_encoder token_ids
  let final := runDiffusion sqrt dm randn hidden_states voice_conditioning
    num_steps cfg_scale seed
  { encoderCalls := [token_ids]
    latents := final.latents
    audio := clipL (-1) 1 (decoder final.latents) }

/-! ### Tokenizer (example_inference.py simple_tokenize, lines 67-95) -/

/-- Python str.split(): split on whitespace runs, dropping empty pieces. -/
def pySplit (text : String) : List String :=
  (text.split (fun c => c = ' ' ∨ c = '\t' ∨ c = '\n' ∨ c = '\r')).filter (fun w => w ≠ "")

/-- Vocabulary lookup (a Python dict membership test plus access). -/
def vocabLookup (vocab : List (String × ℤ)) (s : String) : Option ℤ :=
  (vocab.find? (fun p => p.1 = s)).map Prod.snd

/-- Per-word tokenization (lines 81-93): word with leading-space marker,
    then bare word, then character-level fallback (whose leading-space
    marker depends on whether any token has been emitted so far). -/
def tokenizeWord (vocab : List (String × ℤ)) (tokens : List ℤ) (word : String) : List ℤ :=
  match vocabLookup vocab ("Ġ" ++ word) with
  | some id => tokens ++ [id]
  | none =>
    match vocabLookup vocab word with
    | some id => tokens ++ [id]
    | none =>
      word.toList.foldl
        (fun toks c =>
          let char_token := if toks.isEmpty then "Ġ" ++ String.singleton c
                            else String.singleton c
          match vocabLookup vocab char_token with
          | some id => toks ++ [id]
          | none =>
            match vocabLookup vocab (String.singleton c) with
            | some id => toks ++ [id]
            | none => toks)
        tokens

def simple_tokenize (vocab : List (String × ℤ)) (text : String) : List ℤ :=
  (pySplit text).foldl (tokenizeWord vocab) []

/-! ### Fullstack backend (scenario-02): voice registry and /tts route -/

structure Voice where
  id : String
  name : String
  language : String
  style : String
deriving Repr, DecidableEq

/-- tts_service.py lines 21-28. -/
def VOICES_REGISTRY : List Voice :=
  [ { id := "en-carter", name := "Carter", language := "en", style := "male" }
  , { id := "en-davis", name := "Davis", language := "en", style := "male" }
  , { id := "en-emma", name := "Emma", language := "en", style := "female" }
  , { id := "en-frank", name := "Frank", language := "en", style := "male" }
  , { id := "en-grace", name := "Grace", language := "en", style := "female" }
  , { id := "en-mike", name := "Mike", language := "en", style := "male" } ]

/-- tts_service.py lines 30-37. -/
def VOICE_ID_TO_PRESET : List (String × String) :=
  [ ("en-carter", "en-Carter_man.pt")
  , ("en-davis", "en-Davis_man.pt")
  , ("en-emma", "en-Emma_woman.pt")
  , ("en-frank", "en-Frank_man.pt")
  , ("en-grace", "en-Grace_woman.pt")
  , ("en-mike", "en-Mike_man.pt") ]

/-- TTSService.get_voice_by_id (tts_service.py lines 132-137). -/
def get_voice_by_id (voice_id : String) : Option Voice :=
  VOICES_REGISTRY.find? (fun v => v.id = voice_id)

/-- VOICE_ID_TO_PRESET.get(voice_id, "en-Carter_man.pt")
    (tts_service.py line 112). -/
def presetFileFor (voice_id : String) : String :=
  match (VOICE_ID_TO_PRESET.find? (fun p => p.1 = voice_id)).map Prod.snd with
  | some f => f
  | none => "en-Carter_man.pt"

structure TTSRequest where
  text : String
  voice_id : String
  output_format : String

/-- Outcome of the /tts route: the two 400 rejections, or a generation
    carried out with the resolved preset file (voiceFound records whether
    the registry lookup succeeded; the route only logs on a miss). -/
inductive RouteResponse where
  | validationError
  | unsupportedFormat
  | audio (voiceFound : Bool) (presetFile : String) (strippedText : String)
deriving Repr, DecidableEq

/-- Python str.strip() (whitespace). -/
def pyStrip (s : String) : String := s.trim

/-- generate_speech (routes.py lines 53-108), paired with the number of
    TTSService.generate_audio invocations it performs. -/
def generate_speech (req : TTSRequest) : RouteResponse × ℕ :=
  if req.text = "" ∨ pyStrip req.text = "" then (.validationError, 0)
  else if req.output_format ≠ "wav" then (.unsupportedFormat, 0)
  else
    ( .audio (get_voice_by_id req.voice_id).isSome (presetFileFor req.voice_id)
        (pyStrip req.text)
    , 1 )

/-! ### Heap model of generate_audio's cache ownership
(tts_service.py lines 139-171, stream_tts.py lines 142-159)

Voice preset cache contents live in heap cells addressed by index; a
session is handed `copy.deepcopy(prefilled)` — a freshly allocated cell
holding the same value — and model.generate may mutate only the cell it
was handed. -/

abbrev CacheVal : Type := List ℚ

structure Heap where
  cells : List CacheVal

def Heap.get (h : Heap) (r : ℕ) : CacheVal := h.cells.getD r []

def Heap.set (h : Heap) (r : ℕ) (v : CacheVal) : Heap := ⟨h.cells.set r v⟩

/-- Allocate a fresh cell; its address is the previous cell count. -/
def Heap.alloc (h : Heap) (v : CacheVal) : Heap × ℕ :=
  (⟨h.cells ++ [v]⟩, h.cells.length)

/-- copy.deepcopy: allocate a fresh cell holding the value at r. -/
def deepcopy (h : Heap) (r : ℕ) : Heap × ℕ := h.alloc (h.get r)

/-- model.generate mutates (only) the cache cell it was handed,
    by some arbitrary in-place update mutF. -/
def generateOn (h : Heap) (r : ℕ) (mutF : CacheVal → CacheVal) : Heap :=
  h.set r (mutF (h.get r))

/-- TTSService.generate_audio's cache discipline (lines 145-166): look up
    the stored preset cell, deep-copy it, and run generation on the copy.
    Returns the new heap and the session's private cell address. -/
def generate_audio (h : Heap) (presetRef : ℕ) (mutF : CacheVal → CacheVal) :
    Heap × ℕ :=
  let hc := deepcopy h presetRef
  (generateOn hc.1 hc.2 mutF, hc.2)

/-! ### Helper lemmas about pyRound and the timestep list -/

theorem pyRound_intCast (n : ℤ) : pyRound (n : ℚ) = n := by
  unfold pyRound
  rw [ratFloor_eq, Int.floor_intCast]
  norm_num

theorem floor_le_pyRound (x : ℚ) : ⌊x⌋ ≤ pyRound x := by
  simp only [pyRound, ratFloor_eq]
  split_ifs <;> omega

theorem pyRound_le_floor_add_one (x : ℚ) : pyRound x ≤ ⌊x⌋ + 1 := by
  simp only [pyRound, ratFloor_eq]
  split_ifs <;> omega

theorem pyRound_mono {x y : ℚ} (h : x ≤ y) : pyRound x ≤ pyRound y := by
  have hf : ⌊x⌋ ≤ ⌊y⌋ := Int.floor_mono h
  rcases lt_or_eq_of_le hf with hlt | heq
  · calc pyRound x ≤ ⌊x⌋ + 1 := pyRound_le_floor_add_one x
      _ ≤ ⌊y⌋ := hlt
      _ ≤ pyRound y := floor_le_pyRound y
  · simp only [pyRound, ratFloor_eq]
    rw [← heq]
    have hr : x - (⌊x⌋ : ℚ) ≤ y - (⌊x⌋ : ℚ) := by linarith
    split_ifs <;> first | omega | linarith

theorem timesteps_length (K : ℕ) : (timesteps K).length = K := by
  simp only [timesteps, List.length_map, List.length_range]

theorem step_size_nonneg (K : ℕ) : 0 ≤ step_size K := by
  unfold step_size
  positivity

/-- Differences of consecutive entries of a list. -/
def listGaps (l : List ℤ) : List ℤ := List.zipWith (fun a b => a - b) l l.tail

/-- A list is evenly spaced when all consecutive differences agree. -/
def evenlySpaced (l : List ℤ) : Prop :=
  ∀ g1 ∈ listGaps l, ∀ g2 ∈ listGaps l, g1 = g2

/-- Claim C7, counterexample: for num_inference_steps = 3 the derived
    timestep list is [999, 666, 332], whose consecutive gaps are 333 and
    334 — it is not evenly spaced, refuting the claim as stated. -/
theorem C7_counterexample : ¬ evenlySpaced (timesteps 3) := by
  have h3 : timesteps 3 = [999, 666, 332] := by with_unfolding_all rfl
  rw [h3]
  intro hev
  exact absurd (hev 333 (by decide) 334 (by decide)) (by decide)

/-- Claim C7 (amended): for every num_inference_steps K ≥ 1 the derived
    timestep list has exactly K entries, each within [0, num_train - 1],
    its first entry is num_train - 1, and it is non-increasing (descending,
    though not always strictly and not exactly evenly spaced, because each
    entry is the clamped rounding of an evenly spaced real position). -/
theorem C7_timesteps_schedule (K : ℕ) (hK : 1 ≤ K) :
    (timesteps K).length = K ∧
    (∀ t ∈ timesteps K, 0 ≤ t ∧ t ≤ (num_train : ℤ) - 1) ∧
    (timesteps K).head? = some ((num_train : ℤ) - 1) ∧
    (timesteps K).Pairwise (fun a b => b ≤ a) := by
  refine ⟨timesteps_length K, ?_, ?_, ?_⟩
  · intro t ht
    simp only [timesteps, List.map_map, List.mem_map, Function.comp] at ht
    obtain ⟨i, _, rfl⟩ := ht
    refine ⟨le_max_right _ _, max_le ?_ (by norm_num [num_train])⟩
    have harg : (num_train : ℚ) - 1 - (i : ℚ) * step_size K ≤
        (((num_train : ℤ) - 1 : ℤ) : ℚ) := by
      have h0 : 0 ≤ (i : ℚ) * step_size K :=
        mul_nonneg (Nat.cast_nonneg i) (step_size_nonneg K)
      push_cast
      linarith
    calc pyRound ((num_train : ℚ) - 1 - (i : ℚ) * step_size K)
        ≤ pyRound (((num_train : ℤ) - 1 : ℤ) : ℚ) := pyRound_mono harg
      _ = (num_train : ℤ) - 1 := pyRound_intCast _
  · obtain ⟨k, rfl⟩ : ∃ k, K = k + 1 := ⟨K - 1, by omega⟩
    simp only [timesteps, List.range_succ_eq_map, List.map_cons, List.head?_cons]
    have h0 : ((num_train : ℚ) - 1 - ((0 : ℕ) : ℚ) * step_size (k + 1)) =
        (((num_train : ℤ) - 1 : ℤ) : ℚ) := by push_cast; ring
    rw [h0, pyRound_intCast]
    norm_num [num_train]
  · rw [timesteps, List.map_map]
    refine List.Pairwise.map _ ?_ (List.pairwise_lt_range K)
    intro a b hab
    have hm : (a : ℚ) * step_size K ≤ (b : ℚ) * step_size K :=
      mul_le_mul_of_nonneg_right (by exact_mod_cast hab.le) (step_size_nonneg K)
    have harg : (num_train : ℚ) - 1 - (b : ℚ) * step_size K ≤
        (num_train : ℚ) - 1 - (a : ℚ) * step_size K := by linarith
    exact max_le_max (pyRound_mono harg) le_rfl

/-- Witness for C7_timesteps_schedule at K = 5. -/
theorem C7_witness :
    1 ≤ 5 ∧
    ((timesteps 5).length = 5 ∧
      (∀ t ∈ timesteps 5, 0 ≤ t ∧ t ≤ (num_train : ℤ) - 1) ∧
      (timesteps 5).head? = some ((num_train : ℤ) - 1) ∧
      (timesteps 5).Pairwise (fun a b => b ≤ a)) :=
  ⟨by norm_num, C7_timesteps_schedule 5 (by norm_num)⟩

/-! ### C3: the DDPM update formula -/

/-- DDPM update as the spec words it: recover x0 = (latent - sqrt(1-alpha_t)
    * guided) / sqrt(alpha_t), clip to [-1, 1], then combine x0 and guided
    using alpha_t and alpha_prev, with alpha at timestep 0 treated as 1.0. -/
def ddpmUpdateSpec (sq : ℚ → ℚ) (latent guided : List ℚ) (t : ℤ) : List ℚ :=
  let alpha_t := alphas_cumprod t.toNat
  let alpha_prev := if t = 0 then 1 else alphas_cumprod (t - 1).toNat
  let x0 := clipL (-1) 1
    (divL (subL latent (smulL (sq (1 - alpha_t)) guided)) (sq alpha_t))
  addL (smulL (sq alpha_prev) x0) (smulL (sq (1 - alpha_prev)) guided)

/-- Claim C3: in every diffusion iteration (timesteps are nonnegative), the
    latent produced by the loop body equals the spec's DDPM update — clipped
    x0 estimate recombined with the guided noise, alpha at t = 0 read as 1. -/
theorem C3_ddpm_step (sq : ℚ → ℚ) (dm : DiffModel) (hidden voice : List ℚ)
    (cfg_scale : ℚ) (st : DiffState) (t : ℤ) (ht : 0 ≤ t) :
    (diffIter sq dm hidden voice cfg_scale st t).latents =
      ddpmUpdateSpec sq st.latents
        (guidedNoise dm st.latents hidden voice cfg_scale t) t := by
  simp only [diffIter, ddpmUpdate, ddpmUpdateSpec]
  rcases eq_or_lt_of_le ht with h0 | hpos
  · rw [if_neg (show ¬ t > 0 by omega), if_pos (show t = 0 by omega)]
  · rw [if_pos hpos, if_neg (show ¬ t = 0 by omega)]

/-- Witness for C3_ddpm_step at t = 0 with concrete stub sessions. -/
theorem C3_witness :
    (0 : ℤ) ≤ 0 ∧
    (diffIter (fun x => x) (fun _ _ _ _ => [1]) [] [0] (3/2)
        { latents := [0], negCalls := 0, iters := 0 } 0).latents =
      ddpmUpdateSpec (fun x => x) [0]
        (guidedNoise (fun _ _ _ _ => [1]) [0] [] [0] (3/2) 0) 0 :=
  ⟨le_refl 0,
    C3_ddpm_step (fun x => x) (fun _ _ _ _ => [1]) [] [0] (3/2)
      { latents := [0], negCalls := 0, iters := 0 } 0 (le_refl 0)⟩

/-! ### C4: the classifier-free-guidance combination -/

theorem cfgCombine_zipWith (c : ℚ) (p n : List ℚ) :
    cfgCombine c p n = List.zipWith (fun pos neg => neg + c * (pos - neg)) p n := by
  simp only [cfgCombine, addL, smulL, subL]
  induction p generalizing n with
  | nil => simp
  | cons a p ih =>
    cases n with
    | nil => simp
    | cons b n => simp [ih]

/-- Claim C4: whenever cfg_scale > 1.0 (the unconditional prediction is then
    computed), the guided noise equals, elementwise,
    neg + cfg_scale * (pos - neg). -/
theorem C4_cfg_guidance (dm : DiffModel) (latents hidden voice : List ℚ)
    (cfg_scale : ℚ) (t : ℤ) (hcfg : cfg_scale > 1) :
    guidedNoise dm latents hidden voice cfg_scale t =
      List.zipWith (fun pos neg => neg + cfg_scale * (pos - neg))
        (dm latents hidden voice t) (dm latents hidden (zerosLike voice) t) := by
  simp only [guidedNoise, if_pos hcfg]
  exact cfgCombine_zipWith _ _ _

/-- Witness for C4_cfg_guidance at cfg_scale = 2. -/
theorem C4_witness :
    (2 : ℚ) > 1 ∧
    guidedNoise (fun _ _ _ _ => [2]) [0] [] [1] 2 999 =
      List.zipWith (fun pos neg => neg + 2 * (pos - neg))
        ((fun (_ _ _ : List ℚ) (_ : ℤ) => ([2] : List ℚ)) [0] [] [1] 999)
        ((fun (_ _ _ : List ℚ) (_ : ℤ) => ([2] : List ℚ)) [0] [] (zerosLike [1]) 999) :=
  ⟨by norm_num, C4_cfg_guidance (fun _ _ _ _ => [2]) [0] [] [1] 2 999 (by norm_num)⟩

/-! ### C5: degeneracy of the guidance path at cfg_scale = 1 -/

theorem foldl_diffIter_cfg_one (sq : ℚ → ℚ) (dm : DiffModel)
    (hidden voice : List ℚ) (l : List ℤ) (st : DiffState) :
    (l.foldl (diffIter sq dm hidden voice 1) st).negCalls = st.negCalls ∧
    (l.foldl (diffIter sq dm hidden voice 1) st).latents =
      l.foldl (diffIterSingle sq dm hidden voice) st.latents := by
  induction l generalizing st with
  | nil => exact ⟨rfl, rfl⟩
  | cons t l ih =>
    simp only [List.foldl_cons]
    have hstep : diffIter sq dm hidden voice 1 st t =
        { latents := diffIterSingle sq dm hidden voice st.latents t
          negCalls := st.negCalls
          iters := st.iters + 1 } := by
      simp [diffIter, diffIterSingle, guidedNoise, lt_self_iff_false]
    rw [hstep]
    exact ⟨(ih _).1, (ih _).2⟩

/-- Claim C5: at cfg_scale = 1.0 the unconditional (negative) diffusion pass
    is never invoked, and the final latents coincide with those of the
    single-pass (unconditioned-skip) loop. -/
theorem C5_cfg_degeneracy (sq : ℚ → ℚ) (dm : DiffModel) (randn : ℕ → List ℚ)
    (hidden voice : List ℚ) (K seed : ℕ) :
    (runDiffusion sq dm randn hidden voice K 1 seed).negCalls = 0 ∧
    (runDiffusion sq dm randn hidden voice K 1 seed).latents =
      runDiffusionSingle sq dm randn hidden voice K seed := by
  unfold runDiffusion runDiffusionSingle
  exact foldl_diffIter_cfg_one sq dm hidden voice (timesteps K)
    { latents := randn seed, negCalls := 0, iters := 0 }

/-! ### C6: fresh noise initialization and exact iteration count -/

theorem foldl_diffIter_iters (sq : ℚ → ℚ) (dm : DiffModel)
    (hidden voice : List ℚ) (cfg : ℚ) (l : List ℤ) (st : DiffState) :
    (l.foldl (diffIter sq dm hidden voice cfg) st).iters = st.iters + l.length := by
  induction l generalizing st with
  | nil => simp
  | cons t l ih =>
    rw [List.foldl_cons, ih]
    simp [diffIter]
    omega

/-- Claim C6: the diffusion routine starts its latent from the seeded
    rng.randn draw and performs exactly K = num_inference_steps loop
    iterations (K ≥ 1, as Python's num_train / num_steps requires). -/
theorem C6_fresh_noise_exact_iterations (sq : ℚ → ℚ) (dm : DiffModel)
    (randn : ℕ → List ℚ) (hidden voice : List ℚ) (K : ℕ) (cfg : ℚ) (seed : ℕ)
    (hK : 1 ≤ K) :
    runDiffusion sq dm randn hidden voice K cfg seed =
      (timesteps K).foldl (diffIter sq dm hidden voice cfg)
        { latents := randn seed, negCalls := 0, iters := 0 } ∧
    (runDiffusion sq dm randn hidden voice K cfg seed).iters = K := by
  refine ⟨rfl, ?_⟩
  unfold runDiffusion
  rw [foldl_diffIter_iters]
  simp [timesteps_length]

/-- Witness for C6_fresh_noise_exact_iterations at K = 1 with stub sessions. -/
theorem C6_witness :
    1 ≤ 1 ∧
    (runDiffusion (fun x => x) (fun _ _ _ _ => []) (fun _ => []) [] [] 1 (3/2) 42 =
      (timesteps 1).foldl (diffIter (fun x => x) (fun _ _ _ _ => []) [] [] (3/2))
        { latents := (fun (_ : ℕ) => ([] : List ℚ)) 42, negCalls := 0, iters := 0 } ∧
    (runDiffusion (fun x => x) (fun _ _ _ _ => []) (fun _ => []) [] [] 1 (3/2) 42).iters = 1) :=
  ⟨le_refl 1,
    C6_fresh_noise_exact_iterations (fun x => x) (fun _ _ _ _ => []) (fun _ => [])
      [] [] 1 (3/2) 42 (le_refl 1)⟩

/-! ### C8: determinism of the pipeline -/

/-- Claim C8: two runs of run_pipeline with the same model functions, seed,
    voice conditioning, token ids, num_steps and cfg_scale produce identical
    latent frames and an identical output waveform. -/
theorem C8_determinism (enc : List ℤ → List ℚ) (dm : DiffModel)
    (dec : List ℚ → List ℚ) (sq : ℚ → ℚ) (randn : ℕ → List ℚ)
    (toks toks' : List ℤ) (voice voice' : List ℚ) (K K' : ℕ)
    (cfg cfg' : ℚ) (seed seed' : ℕ)
    (htok : toks = toks') (hvoice : voice = voice') (hK : K = K')
    (hcfg : cfg = cfg') (hseed : seed = seed') :
    run_pipeline enc dm dec sq randn toks voice K cfg seed =
      run_pipeline enc dm dec sq randn toks' voice' K' cfg' seed' := by
  subst htok hvoice hK hcfg hseed
  rfl

/-- Witness for C8_determinism at concrete inputs. -/
theorem C8_witness :
    [(3 : ℤ)] = [(3 : ℤ)] ∧ [(1 : ℚ)] = [(1 : ℚ)] ∧ 5 = 5 ∧
    (3/2 : ℚ) = 3/2 ∧ 42 = 42 ∧
    run_pipeline (fun _ => []) (fun _ _ _ _ => []) (fun l => l) (fun x => x)
        (fun _ => []) [3] [1] 5 (3/2) 42 =
      run_pipeline (fun _ => []) (fun _ _ _ _ => []) (fun l => l) (fun x => x)
        (fun _ => []) [3] [1] 5 (3/2) 42 :=
  ⟨rfl, rfl, rfl, rfl, rfl,
    C8_determinism (fun _ => []) (fun _ _ _ _ => []) (fun l => l) (fun x => x)
      (fun _ => []) [3] [3] [1] [1] 5 5 (3/2) (3/2) 42 42 rfl rfl rfl rfl rfl⟩

/-! ### C10: the returned audio is clipped to [-1, 1] -/

/-- Claim C10: every sample of the audio list returned by run_pipeline lies
    in [-1, 1]; the flattened decoder output is clipped before return. -/
theorem C10_audio_in_range (enc : List ℤ → List ℚ) (dm : DiffModel)
    (dec : List ℚ → List ℚ) (sq : ℚ → ℚ) (randn : ℕ → List ℚ)
    (toks : List ℤ) (voice : List ℚ) (K : ℕ) (cfg : ℚ) (seed : ℕ) :
    ∀ x ∈ (run_pipeline enc dm dec sq randn toks voice K cfg seed).audio,
      -1 ≤ x ∧ x ≤ 1 := by
  intro x hx
  simp only [run_pipeline, clipL, List.mem_map] at hx
  obtain ⟨y, _, rfl⟩ := hx
  exact ⟨le_max_left _ _, max_le (by norm_num) (min_le_left _ _)⟩

/-- Witness for C10_audio_in_range: with a stub decoder emitting [2, -1/2]
    the pipeline's audio is [1, -1/2], and the sample 1 lies in [-1, 1]. -/
theorem C10_witness :
    (1 : ℚ) ∈ (run_pipeline (fun _ => []) (fun _ _ _ _ => []) (fun _ => [2, -1/2])
        (fun x => x) (fun _ => []) [] [] 1 (3/2) 42).audio ∧
    (-1 ≤ (1 : ℚ) ∧ (1 : ℚ) ≤ 1) := by
  have haudio : (run_pipeline (fun _ => []) (fun _ _ _ _ => []) (fun _ => [2, -1/2])
      (fun x => x) (fun _ => []) [] [] 1 (3/2) 42).audio = [1, -1/2] := by
    with_unfolding_all rfl
  have hmem : (1 : ℚ) ∈ (run_pipeline (fun _ => []) (fun _ _ _ _ => [])
      (fun _ => [2, -1/2]) (fun x => x) (fun _ => []) [] [] 1 (3/2) 42).audio := by
    rw [haudio]
    exact List.mem_cons_self _ _
  exact ⟨hmem, C10_audio_in_range (fun _ => []) (fun _ _ _ _ => [])
    (fun _ => [2, -1/2]) (fun x => x) (fun _ => []) [] [] 1 (3/2) 42 1 hmem⟩

/-! ### C1: unknown voice id is not rejected (code_bug evidence) -/

/-- Claim C1, failing-input evaluation: for a request whose voice_id is
    unknown to the registry, generate_speech does not fail with any error —
    the registry lookup misses, yet generation proceeds (count 1) with the
    default en-Carter_man.pt preset substituted. This contradicts the claim
    (and the repository's own test
    test_tts_with_invalid_voice_returns_error). -/
theorem C1_unknown_voice_substituted :
    get_voice_by_id "invalid-voice-id" = none ∧
    generate_speech ⟨"Hello, world!", "invalid-voice-id", "wav"⟩ =
      (RouteResponse.audio false "en-Carter_man.pt" "Hello, world!", 1) := by
  constructor <;> with_unfolding_all rfl

/-! ### C2: empty text -/

/-- Claim C2, counterexample: empty text tokenizes to the empty token
    sequence, yet run_pipeline performs no emptiness check and invokes the
    text encoder on that empty sequence (encoderCalls = [[]]) instead of
    rejecting the request. -/
theorem C2_counterexample :
    simple_tokenize [("Ġhello", 1)] "" = [] ∧
    (run_pipeline (fun _ => []) (fun _ _ _ _ => []) (fun _ => []) (fun x => x)
        (fun _ => []) (simple_tokenize [("Ġhello", 1)] "") [] 5 (3/2) 42).encoderCalls
      = [[]] := by
  constructor <;> with_unfolding_all rfl

/-- Claim C2 (amended): the fullstack route rejects every empty or
    whitespace-only text (any text whose strip() is empty) with a
    validation error before any generate_audio call (count 0), while the
    ONNX example pipeline performs no such check and invokes the text
    encoder even on an empty token sequence. -/
theorem C2_empty_text (text voice_id output_format : String)
    (enc : List ℤ → List ℚ) (dm : DiffModel) (dec : List ℚ → List ℚ)
    (sq : ℚ → ℚ) (randn : ℕ → List ℚ) (voice : List ℚ) (K : ℕ) (cfg : ℚ)
    (seed : ℕ) (hblank : pyStrip text = "") :
    generate_speech ⟨text, voice_id, output_format⟩ =
      (RouteResponse.validationError, 0) ∧
    (run_pipeline enc dm dec sq randn [] voice K cfg seed).encoderCalls = [[]] := by
  constructor
  · simp [generate_speech, hblank]
  · rfl

/-- Witness for C2_empty_text on a whitespace-only request, the case that
    exercises the route's strip() check. -/
theorem C2_witness :
    pyStrip "   " = "" ∧
    (generate_speech ⟨"   ", "en-carter", "wav"⟩ =
        (RouteResponse.validationError, 0) ∧
      (run_pipeline (fun _ => []) (fun _ _ _ _ => []) (fun _ => []) (fun x => x)
          (fun _ => []) [] [] 5 (3/2) 42).encoderCalls = [[]]) :=
  have hblank : pyStrip "   " = "" := by with_unfolding_all rfl
  ⟨hblank,
    C2_empty_text "   " "en-carter" "wav" (fun _ => []) (fun _ _ _ _ => [])
      (fun _ => []) (fun x => x) (fun _ => []) [] 5 (3/2) 42 hblank⟩

/-! ### C9: per-session deep copies of the voice preset caches -/

theorem Heap.get_def (h : Heap) (r : ℕ) : h.get r = h.cells.getD r [] := rfl

theorem getD_append_length {α : Type _} (l : List α) (v d : α) :
    (l ++ [v]).getD l.length d = v := by
  simp [List.getD_eq_getElem?_getD, List.getElem?_append]

theorem getD_append_lt {α : Type _} (l l' : List α) (n : ℕ) (d : α)
    (hn : n < l.length) : (l ++ l').getD n d = l.getD n d := by
  simp [List.getD_eq_getElem?_getD, List.getElem?_append, hn]

theorem set_append_length {α : Type _} (l : List α) (v x : α) :
    (l ++ [v]).set l.length x = l ++ [x] := by
  rw [List.set_append]
  simp

theorem generate_audio_ref (h : Heap) (r : ℕ) (f : CacheVal → CacheVal) :
    (generate_audio h r f).2 = h.cells.length := rfl

theorem generate_audio_cells (h : Heap) (r : ℕ) (f : CacheVal → CacheVal) :
    (generate_audio h r f).1.cells = h.cells ++ [f (h.get r)] := by
  show (h.cells ++ [h.get r]).set h.cells.length
      (f ((h.cells ++ [h.get r]).getD h.cells.length [])) = h.cells ++ [f (h.get r)]
  rw [getD_append_length, set_append_length]

/-- Claim C9: generate_audio hands each session a deep copy of the stored
    voice preset cell: the session cell is distinct from the preset cell,
    two sessions on the same voice receive distinct cells, and after either
    generation completes the preset cell's contents are unchanged. -/
theorem C9_session_isolation (h : Heap) (presetRef : ℕ)
    (f1 f2 : CacheVal → CacheVal) (href : presetRef < h.cells.length) :
    (generate_audio h presetRef f1).2 ≠ presetRef ∧
    (generate_audio (generate_audio h presetRef f1).1 presetRef f2).2 ≠ presetRef ∧
    (generate_audio (generate_audio h presetRef f1).1 presetRef f2).2 ≠
      (generate_audio h presetRef f1).2 ∧
    (generate_audio h presetRef f1).1.get presetRef = h.get presetRef ∧
    (generate_audio (generate_audio h presetRef f1).1 presetRef f2).1.get presetRef =
      h.get presetRef := by
  have h1cells := generate_audio_cells h presetRef f1
  have hlen1 : (generate_audio h presetRef f1).1.cells.length =
      h.cells.length + 1 := by
    rw [h1cells, List.length_append, List.length_singleton]
  have h2cells := generate_audio_cells (generate_audio h presetRef f1).1 presetRef f2
  have href1 : presetRef < (generate_audio h presetRef f1).1.cells.length := by
    rw [hlen1]; omega
  refine ⟨?_, ?_, ?_, ?_, ?_⟩
  · rw [generate_audio_ref]; omega
  · rw [generate_audio_ref, hlen1]; omega
  · rw [generate_audio_ref, generate_audio_ref, hlen1]; omega
  · rw [Heap.get_def, Heap.get_def, h1cells, getD_append_lt _ _ _ _ href]
  · rw [Heap.get_def, Heap.get_def, h2cells, getD_append_lt _ _ _ _ href1,
      h1cells, getD_append_lt _ _ _ _ href]

/-- Witness for C9_session_isolation on a one-cell heap. -/
theorem C9_witness :
    0 < (Heap.mk [[5]]).cells.length ∧
    ((generate_audio (Heap.mk [[5]]) 0 (fun c => 0 :: c)).2 ≠ 0 ∧
      (generate_audio (generate_audio (Heap.mk [[5]]) 0 (fun c => 0 :: c)).1 0
          (fun c => c)).2 ≠ 0 ∧
      (generate_audio (generate_audio (Heap.mk [[5]]) 0 (fun c => 0 :: c)).1 0
          (fun c => c)).2 ≠
        (generate_audio (Heap.mk [[5]]) 0 (fun c => 0 :: c)).2 ∧
      (generate_audio (Heap.mk [[5]]) 0 (fun c => 0 :: c)).1.get 0 =
        (Heap.mk [[5]]).get 0 ∧
      (generate_audio (generate_audio (Heap.mk [[5]]) 0 (fun c => 0 :: c)).1 0
          (fun c => c)).1.get 0 = (Heap.mk [[5]]).get 0) :=
  ⟨Nat.one_pos,
    C9_session_isolation (Heap.mk [[5]]) 0 (fun c => 0 :: c) (fun c => c) Nat.one_pos⟩

end VibeVoice
